import Mathlib

/-!
Shallow embedding of `auto_scale.py`, the buildfarm worker auto-scaler.

Times are modelled as整 integers (seconds); `datetime` subtraction
`(now - start).total_seconds()` becomes integer subtraction.  Python
`(result, error)` pairs become explicit outcome types, with a separate
constructor for an exception that the source does not catch.
-/

namespace BuildfarmAutoScale

/-- The module-level configuration globals of `auto_scale.py`
(`min_worker`, `max_worker`, `scrape_period`, `delay_of_retry`,
`trending_duration`), after `load_config` has run. -/
structure Config where
  min_worker : Int
  max_worker : Int
  scrape_period : Int
  delay_of_retry : Int
  trending_duration : Int
deriving DecidableEq

/-- The mutable scaling state of class `Global`: `expected_worker_num`,
`is_scale_up_trending`, `trending_start_time`. -/
structure GState where
  expected_worker_num : Int
  is_scale_up_trending : Bool
  trending_start_time : Int
deriving DecidableEq

/-- One control-loop tick observation: the wall clock `now` and the two
aggregates scraped from the buildfarm server. -/
structure Sample where
  now : Int
  queue_size : Int
  worker_pool_size : Int
deriving DecidableEq

/-- The environment variables read by `load_config`, modelled as
already-validated integers (`None` = variable unset).  `load_env_or_default`
calls `int(v)` on the raw string; a non-integer string would raise there,
which no claim here exercises. -/
structure Env where
  bf_min_worker : Option Int
  bf_max_worker : Option Int
  bf_scrape_period : Option Int
  bf_scale_delay_of_retry : Option Int
  bf_scale_trending_duration : Option Int
deriving DecidableEq

/-- `load_env_or_default`: return the environment value if set, else the
default. -/
def load_env_or_default (v : Option Int) (default : Int) : Int :=
  v.getD default

/-- `load_config` (lines 68-91 of the source): read each variable, then
apply the source's adjustments: `min_worker` floored at 1, `max_worker`
raised to `min_worker` when below it, `scrape_period` floored at 1,
`delay_of_retry` floored at 0; `trending_duration` is taken as-is.
The source never exits or raises on `max_worker < min_worker`;
it silently assigns `max_worker = min_worker`. -/
def load_config (env : Env) : Config :=
  let min0 := load_env_or_default env.bf_min_worker 1
  let min1 := if min0 < 1 then 1 else min0
  let max0 := load_env_or_default env.bf_max_worker 4
  let max1 := if max0 < min1 then min1 else max0
  let sp0 := load_env_or_default env.bf_scrape_period 5
  let sp1 := if sp0 ≤ 0 then 1 else sp0
  let dr0 := load_env_or_default env.bf_scale_delay_of_retry 1
  let dr1 := if dr0 < 0 then 0 else dr0
  let td := load_env_or_default env.bf_scale_trending_duration 10
  { min_worker := min1, max_worker := max1, scrape_period := sp1,
    delay_of_retry := dr1, trending_duration := td }

/-- The initial `Global` state: `expected_worker_num = 1`,
`is_scale_up_trending = True`, `trending_start_time = datetime.now()`
(the process start instant, passed here as `t0`). -/
def initG (t0 : Int) : GState :=
  { expected_worker_num := 1, is_scale_up_trending := true,
    trending_start_time := t0 }

/-- Startup (`main` lines 50-57 plus `Global.__init__`): load the
configuration, then construct `Global`; the only fatal startup exit in
the source is a missing or empty `SANDBOX_NAME` (`sys.exit(1)`), modelled
as `Except.error 1`. -/
def startup (env : Env) (sandbox_name : Option String) (t0 : Int) :
    Except Nat (Config × GState) :=
  let cfg := load_config env
  match sandbox_name with
  | none => Except.error 1
  | some s => if s = "" then Except.error 1 else Except.ok (cfg, initG t0)

/-- The trend-update block of `scale` (lines 111-120): a positive queue
flips to the scale-up trend, a zero queue flips to the scale-down trend,
and `trending_start_time` is reassigned only inside a flip branch. -/
def updateTrend (st : GState) (now queue_size : Int) : GState :=
  if queue_size > 0 then
    if st.is_scale_up_trending then st
    else { st with is_scale_up_trending := true, trending_start_time := now }
  else
    if st.is_scale_up_trending then
      { st with is_scale_up_trending := false, trending_start_time := now }
    else st

/-- The target-update block of `scale` (lines 123-135): once the trend has
lasted `trending_duration`, move `expected_worker_num` one step in the
trend direction, gated on `worker_pool_size`, then apply the two clamp
statements in the source's order. -/
def updateExpected (cfg : Config) (st : GState) (now worker_pool_size : Int) :
    GState :=
  if now - st.trending_start_time ≥ cfg.trending_duration then
    let e0 := st.expected_worker_num
    let e1 := if st.is_scale_up_trending = true ∧ e0 ≤ worker_pool_size
      then e0 + 1 else e0
    let e2 := if st.is_scale_up_trending = false ∧ e1 ≥ worker_pool_size
      then e1 - 1 else e1
    let e3 := if e2 > cfg.max_worker then cfg.max_worker else e2
    let e4 := if e3 < cfg.min_worker then cfg.min_worker else e3
    { st with expected_worker_num := e4 }
  else st

/-- The in-memory state transition of one successful `scale` tick:
trend update followed by the debounce-gated target update. -/
def scaleStep (cfg : Config) (st : GState) (s : Sample) : GState :=
  updateExpected cfg (updateTrend st s.now s.queue_size) s.now s.worker_pool_size

/-- Iterating `scaleStep` over a sequence of tick observations. -/
def scaleRun (cfg : Config) (st : GState) (samples : List Sample) : GState :=
  samples.foldl (scaleStep cfg) st

/-! ## Metrics parsing (`parse_metrics`, lines 261-289) -/

/-- A value stored in the `metrics` dictionary built by `parse_metrics`:
an unlabelled line stores the raw value string (`metrics[key] = value`),
a labelled line stores an inner dictionary from label text to value
string (`metrics[group][label] = value`). -/
inductive MetricVal where
  | scalar (v : String)
  | labeled (entries : List (String × String))
deriving DecidableEq

/-- The `metrics` dictionary, as an insertion-ordered association list,
matching Python dict iteration order. -/
abbrev Metrics := List (String × MetricVal)

/-- Python dict assignment `d[k] = v`: replace in place when the key
exists, append otherwise. -/
def dictSet {α : Type} (xs : List (String × α)) (k : String) (v : α) :
    List (String × α) :=
  if xs.any (fun p => p.1 = k) then
    xs.map (fun p => if p.1 = k then (k, v) else p)
  else xs ++ [(k, v)]

/-- Python dict lookup `d[k]` / `k in d`. -/
def dictGet {α : Type} (xs : List (String × α)) (k : String) : Option α :=
  match xs.find? (fun p => p.1 = k) with
  | some p => some p.2
  | none => none

/-- Python `str.strip()`: drop whitespace from both ends (structural, so
that the kernel can evaluate parses of concrete payloads). -/
def stripChars (cs : List Char) : List Char :=
  ((cs.dropWhile Char.isWhitespace).reverse.dropWhile Char.isWhitespace).reverse

/-- Split a character list at newline characters, keeping empty segments,
matching the line decomposition that the source's `readline` loop
visits. -/
def splitLinesAux : List Char → List Char → List (List Char)
  | [], acc => [acc.reverse]
  | c :: rest, acc =>
    if c = Char.ofNat 10 then acc.reverse :: splitLinesAux rest []
    else splitLinesAux rest (c :: acc)

/-- The newline-separated segments of a payload. -/
def splitLines (s : String) : List (List Char) :=
  splitLinesAux s.toList []

/-- Python `str.startswith(pre)`. -/
def pyStartsWith (cs pre : List Char) : Bool :=
  pre.isPrefixOf cs

/-- Index of the last space in a character list (`str.rindex(" ")`). -/
def lastSpaceIdx : List Char → Option Nat
  | [] => none
  | c :: rest =>
    match lastSpaceIdx rest with
    | some i => some (i + 1)
    | none => if c = ' ' then some 0 else none

/-- Index of the first opening brace in a character list
(`str.index("\x7b")`). -/
def firstBraceIdx : List Char → Option Nat
  | [] => none
  | c :: rest =>
    if c = Char.ofNat 123 then some 0 else (firstBraceIdx rest).map (· + 1)

/-- One iteration of the `parse_metrics` line loop: skip comment lines
(`startswith("#")` on the raw line), strip, split at the last space (no
space: skip the line), split the key at the first brace.  A labelled line
whose bare key already holds a scalar string reproduces the source's
`TypeError` (item assignment on `str`), surfaced as an error. -/
def parseMetricsLine (metrics : Metrics) (line0 : List Char) :
    Except String Metrics :=
  if pyStartsWith line0 ['#'] then Except.ok metrics
  else
    let line := stripChars line0
    match lastSpaceIdx line with
    | none => Except.ok metrics
    | some index =>
      let key : String := ⟨line.take index⟩
      let value : String := ⟨line.drop (index + 1)⟩
      match firstBraceIdx key.toList with
      | none => Except.ok (dictSet metrics key (MetricVal.scalar value))
      | some label_index =>
        let label : String := ⟨key.toList.drop label_index⟩
        let group : String := ⟨key.toList.take label_index⟩
        match dictGet metrics group with
        | some (MetricVal.labeled es) =>
          Except.ok (dictSet metrics group
            (MetricVal.labeled (dictSet es label value)))
        | some (MetricVal.scalar _) => Except.error "TypeError"
        | none =>
          Except.ok (dictSet metrics group (MetricVal.labeled [(label, value)]))

/-- `parse_metrics` (lines 261-289): iterate the line loop over the
payload.  The `readline` loop of the source visits exactly the
newline-separated segments of the content; a trailing or interior empty
segment has no space and is skipped, matching the source. -/
def parse_metrics (content : String) : Except String Metrics :=
  (splitLines content).foldlM parseMetricsLine []

/-! ## Numeric conversion `int(float(v))` -/

/-- Digit string to natural number. -/
def digitsToNat (cs : List Char) : Nat :=
  cs.foldl (fun a c => a * 10 + (c.toNat - 48)) 0

/-- Model of Python `int(float(v))` on the decimal subset of the float
grammar: optional sign, integer digits, optional fraction; exponents,
`inf`, `nan` and underscore separators are not modelled (no scraped value
in the claims uses them).  `none` models the `ValueError` that `float`
raises on a malformed value, and truncation toward zero matches `int`. -/
def pyIntOfFloatStr (s : String) : Option Int :=
  let cs := stripChars s.toList
  let signed : Bool × List Char :=
    match cs with
    | c :: rest =>
      if c = '-' then (true, rest)
      else if c = '+' then (false, rest) else (false, cs)
    | [] => (false, [])
  let neg := signed.1
  let intPart := signed.2.takeWhile Char.isDigit
  let afterInt := signed.2.dropWhile Char.isDigit
  let hasDot : Bool × List Char :=
    match afterInt with
    | c :: rest => if c = '.' then (true, rest) else (false, afterInt)
    | [] => (false, afterInt)
  let fracPart := if hasDot.1 then hasDot.2.takeWhile Char.isDigit else []
  let rest := if hasDot.1 then hasDot.2.dropWhile Char.isDigit else afterInt
  if rest ≠ [] then none
  else if intPart = [] ∧ fracPart = [] then none
  else
    let num := digitsToNat (intPart ++ fracPart)
    let t : Nat := num / 10 ^ fracPart.length
    some (if neg then -(t : Int) else (t : Int))

/-! ## Server and worker metric scrapes (lines 236-259, 292-326) -/

/-- The outcome of `requests.get`: a response with a status code and body
text, or a transport exception reaching the `except` clause. -/
inductive HttpResult where
  | resp (status : Int) (text : String)
  | transportError
deriving DecidableEq

/-- Outcome of `scrape_buildfarm_server_metrics`: `ok` models
`(server_metrics, None)`, `err` models a returned `(None, message)` pair,
and `exc` models an exception the function does not catch (the `try`
block only wraps the HTTP request). -/
inductive ServerOutcome where
  | ok (queue_size worker_pool_size : Int)
  | err (msg : String)
  | exc (msg : String)
deriving DecidableEq

/-- The summation loop over `metrics["queue_size"].items()` (lines
253-254): `server_metrics.queue_size += int(float(v))`; a malformed value
raises `ValueError` out of the loop. -/
def sumQueueItems : List (String × String) → Int → Except String Int
  | [], acc => Except.ok acc
  | (_, v) :: rest, acc =>
    match pyIntOfFloatStr v with
    | none => Except.error "ValueError"
    | some n => sumQueueItems rest (acc + n)

/-- `scrape_buildfarm_server_metrics` (lines 237-259).  Branches in source
order: the `except` clause returns the undefined name `err` (a
`NameError`), a non-200 status returns `(None, text)`, a missing
`queue_size` key returns an error pair, `.items()` on a scalar string
raises `AttributeError`, a malformed value raises `ValueError`, a missing
`worker_pool_size` key returns an error pair, and
`int(float(metrics["worker_pool_size"]))` on an inner dict raises
`TypeError`. -/
def scrape_buildfarm_server_metrics (http : HttpResult) : ServerOutcome :=
  match http with
  | HttpResult.transportError => ServerOutcome.exc "NameError: err"
  | HttpResult.resp status text =>
    if status ≠ 200 then ServerOutcome.err text
    else
      match parse_metrics text with
      | Except.error e => ServerOutcome.exc e
      | Except.ok metrics =>
        match dictGet metrics "queue_size" with
        | none => ServerOutcome.err "metric queue_size not found"
        | some (MetricVal.scalar _) => ServerOutcome.exc "AttributeError"
        | some (MetricVal.labeled items) =>
          match sumQueueItems items 0 with
          | Except.error e => ServerOutcome.exc e
          | Except.ok qs =>
            match dictGet metrics "worker_pool_size" with
            | none => ServerOutcome.err "metric worker_pool_size not found"
            | some (MetricVal.labeled _) => ServerOutcome.exc "TypeError"
            | some (MetricVal.scalar v) =>
              match pyIntOfFloatStr v with
              | none => ServerOutcome.exc "ValueError"
              | some wps => ServerOutcome.ok qs wps

/-- The scrape phase of one `scale` tick together with `main`'s loop
policy (lines 59-66, 102-105): a returned error pair makes `scale` return
`False`, which `main` catches, logs, and retries after `delay_of_retry`
(`Except.ok false`); a successful scrape lets the tick continue
(`Except.ok true`); an exception propagates uncaught through `scale` and
`main` and terminates the process (`Except.error`). -/
def scale_scrape_phase (http : HttpResult) : Except String Bool :=
  match scrape_buildfarm_server_metrics http with
  | ServerOutcome.exc m => Except.error m
  | ServerOutcome.err _ => Except.ok false
  | ServerOutcome.ok _ _ => Except.ok true

/-- Metrics scraped from one buildfarm worker (class
`BuildfarmWorkerMetrics`). -/
structure WMetrics where
  worker_name : String
  execution_slot_usage : Int
deriving DecidableEq

/-- The `subprocess.run(["prom2json", url], ...)` result (line 298);
every reachable return of the function occurs before this value is
read, so it is dead state. -/
structure PromResult where
  returncode : Int
  stdout : String
  stderr : String
deriving DecidableEq

/-- Outcome of `scrape_buildfarm_worker_metrics`, with the same reading
as `ServerOutcome`. -/
inductive WorkerOutcome where
  | ok (m : WMetrics)
  | err (msg : String)
  | exc (msg : String)
deriving DecidableEq

/-- `scrape_buildfarm_worker_metrics` (lines 293-326).  After a 200
response whose parsed payload contains `execution_slot_usage`, line 311
reads the undefined name `metric` (the dictionary is bound as `metrics`),
raising `NameError`; everything from line 314 on is unreachable, so the
function can never return an `ok` pair. -/
def scrape_buildfarm_worker_metrics ( _worker_name : String)
    ( _result : PromResult) (http : HttpResult) : WorkerOutcome :=
  match http with
  | HttpResult.transportError => WorkerOutcome.exc "NameError: err"
  | HttpResult.resp status text =>
    if status ≠ 200 then WorkerOutcome.err text
    else
      match parse_metrics text with
      | Except.error e => WorkerOutcome.exc e
      | Except.ok metrics =>
        match dictGet metrics "execution_slot_usage" with
        | none => WorkerOutcome.err "metrics execution_slot_usage not found"
        | some _ => WorkerOutcome.exc "NameError: metric"

/-! ## Scale-down (`scale_down`, lines 168-201)

The fleet-definition document is modelled by its container name list
(`template["containers"]`, each container read only through `["name"]`).
The `sandbox_template` fetch is a parameter: on a fetch error the
function returns before touching anything, so the claims below take the
fetched container list as input.  The per-worker scrape
`scrape_buildfarm_worker_metrics(worker["name"])` is a parameter
`oracle : Nat → String → Option WMetrics` giving, for each outer loop
iteration and worker name, the metrics appended on an `err == None`
result (`none` models any returned error pair; an uncaught exception in
the real scrape would abort `scale_down` wholesale, removing nothing). -/

/-- Externally visible actions of one `scale_down` call, in program
order. -/
inductive Event where
  | scraped (worker : String) (res : Option WMetrics)
  | removed (worker : String)
  | submitted (doc : List String)
deriving DecidableEq

/-- The loop state of `scale_down`: the accumulating `metrics` list
(initialised once, before the outer loop), the containers of the mutated
document, the `has_idled_worker` flag, and the action trace. -/
structure DownState where
  metrics : List WMetrics
  containers : List String
  has_idled_worker : Bool
  events : List Event
deriving DecidableEq

/-- `workers_defined_in_template` (line 213-214): containers whose name
starts with `bf-worker`. -/
def workers_defined_in_template (containers : List String) : List String :=
  containers.filter (fun n => pyStartsWith n.toList "bf-worker".toList)

/-- One iteration of the outer `for i in range(0, scale_num)` loop
(lines 182-191): scrape every worker of the *original* template list,
append the successful results to the shared `metrics` list, filter the
accumulated list for idle entries, and if any exists remove the first
one's name from the containers and set `has_idled_worker`. -/
def downStep (oracle : Nat → String → Option WMetrics)
    (workers : List String) (i : Nat) (st : DownState) : DownState :=
  let scraped := workers.filterMap (fun w => oracle i w)
  let scrapeEvents := workers.map (fun w => Event.scraped w (oracle i w))
  let metrics2 := st.metrics ++ scraped
  let idle_workers := metrics2.filter (fun m => m.execution_slot_usage = 0)
  match idle_workers with
  | [] =>
    { metrics := metrics2, containers := st.containers,
      has_idled_worker := st.has_idled_worker,
      events := st.events ++ scrapeEvents }
  | m0 :: _ =>
    { metrics := metrics2,
      containers := st.containers.filter (fun c => c ≠ m0.worker_name),
      has_idled_worker := true,
      events := st.events ++ scrapeEvents ++ [Event.removed m0.worker_name] }

/-- The outer removal loop, iterated `scale_num` times. -/
def downLoop (oracle : Nat → String → Option WMetrics)
    (workers : List String) : Nat → Nat → DownState → DownState
  | 0, _, st => st
  | Nat.succ n, i, st => downLoop oracle workers n (i + 1) (downStep oracle workers i st)

/-- `scale_down` (lines 168-201): compute `scale_num`, return untouched
when it is not positive, run the removal loop, and only then — once,
after the whole loop — submit the mutated document when some idle worker
was found (`has_idled_worker`); with no idle worker the function logs and
returns without submitting. -/
def scale_down (oracle : Nat → String → Option WMetrics)
    (expected_worker_num : Int) (containers : List String) : DownState :=
  let workers_in_template := workers_defined_in_template containers
  let scale_num : Int := (workers_in_template.length : Int) - expected_worker_num
  let st0 : DownState :=
    { metrics := [], containers := containers,
      has_idled_worker := false, events := [] }
  if scale_num ≤ 0 then st0
  else
    let st := downLoop oracle workers_in_template scale_num.toNat 0 st0
    if st.has_idled_worker then
      { st with events := st.events ++ [Event.submitted st.containers] }
    else st

/-- Whether an event is a document submission. -/
def isSubmitted : Event → Bool
  | Event.submitted _ => true
  | _ => false

/-- Whether an event is a worker removal from the document. -/
def isRemoved : Event → Bool
  | Event.removed _ => true
  | _ => false

/-- Property taken from the specification words for comparison with the
source-generated trace: every removal is immediately followed by a
submission of the mutated document. -/
def eachRemovalImmediatelySubmitted : List Event → Bool
  | [] => true
  | Event.removed _ :: rest =>
    (match rest with
     | e :: _ => isSubmitted e
     | [] => false) && eachRemovalImmediatelySubmitted rest
  | _ :: rest => eachRemovalImmediatelySubmitted rest

/-- No removal occurs after a submission in the trace. -/
def noRemovalAfterSubmit : List Event → Bool
  | [] => true
  | Event.submitted _ :: rest =>
    rest.all (fun e => !isRemoved e) && noRemovalAfterSubmit rest
  | _ :: rest => noRemovalAfterSubmit rest

/-- `shortRunsB d trend start samples`: along the trend trajectory that
`updateTrend` follows from a state with direction `trend` and timer
`start`, every tick observes an elapsed time below `d` — i.e. every
maximal run of equal-signed `queue_size` samples ends (or the list ends)
before `d` elapses since the run began. -/
def shortRunsB (d : Int) : Bool → Int → List Sample → Bool
  | _, _, [] => true
  | trend, start, s :: rest =>
    (decide (s.now -
      (if decide (s.queue_size > 0) = trend then start else s.now) < d)) &&
    shortRunsB d (decide (s.queue_size > 0))
      (if decide (s.queue_size > 0) = trend then start else s.now) rest

/-! ## Theorems -/

theorem updateTrend_expected (st : GState) (now qs : Int) :
    (updateTrend st now qs).expected_worker_num = st.expected_worker_num := by
  unfold updateTrend
  split_ifs <;> rfl

theorem updateTrend_trend (st : GState) (now qs : Int) :
    (updateTrend st now qs).is_scale_up_trending = decide (qs > 0) := by
  unfold updateTrend
  split_ifs <;> simp_all

theorem updateTrend_start (st : GState) (now qs : Int) :
    (updateTrend st now qs).trending_start_time =
      if decide (qs > 0) = st.is_scale_up_trending then st.trending_start_time
      else now := by
  unfold updateTrend
  split_ifs <;> (simp_all; try omega)

theorem updateExpected_not_elapsed (cfg : Config) (st : GState) (now pool : Int)
    (h : now - st.trending_start_time < cfg.trending_duration) :
    updateExpected cfg st now pool = st := by
  unfold updateExpected
  rw [if_neg (by omega)]

theorem scaleRun_expected_of_shortRuns (cfg : Config) :
    ∀ (samples : List Sample) (st : GState),
      shortRunsB cfg.trending_duration st.is_scale_up_trending
        st.trending_start_time samples = true →
      (scaleRun cfg st samples).expected_worker_num = st.expected_worker_num
  | [], _, _ => rfl
  | s :: rest, st, h => by
    rw [shortRunsB, Bool.and_eq_true] at h
    obtain ⟨h1, h2⟩ := h
    have h1i : s.now - (updateTrend st s.now s.queue_size).trending_start_time <
        cfg.trending_duration := by
      rw [updateTrend_start]
      exact of_decide_eq_true h1
    have hstep : scaleStep cfg st s = updateTrend st s.now s.queue_size :=
      updateExpected_not_elapsed cfg _ s.now s.worker_pool_size h1i
    have h2i : shortRunsB cfg.trending_duration
        (updateTrend st s.now s.queue_size).is_scale_up_trending
        (updateTrend st s.now s.queue_size).trending_start_time rest = true := by
      rw [updateTrend_trend, updateTrend_start]
      exact h2
    calc (scaleRun cfg st (s :: rest)).expected_worker_num
        = (scaleRun cfg (updateTrend st s.now s.queue_size) rest).expected_worker_num := by
          simp only [scaleRun, List.foldl_cons, hstep]
      _ = (updateTrend st s.now s.queue_size).expected_worker_num :=
          scaleRun_expected_of_shortRuns cfg rest _ h2i
      _ = st.expected_worker_num := updateTrend_expected st s.now s.queue_size

/-- Claim C2: for any sequence of ticks in which every run of
equal-signed `queue_size` samples is shorter than `trending_duration`
(as measured by the trend timer the code maintains), the desired worker
count `expected_worker_num` never changes; moreover `updateTrend` leaves
the state — including `trending_start_time` — completely unchanged on a
tick whose queue sign agrees with the current trend, and resets the
timer to `now` exactly on a tick that flips the direction. -/
theorem scale_debounce_no_flapping (cfg : Config) (st : GState)
    (samples : List Sample)
    (h : shortRunsB cfg.trending_duration st.is_scale_up_trending
      st.trending_start_time samples = true) :
    (scaleRun cfg st samples).expected_worker_num = st.expected_worker_num ∧
    (∀ (st2 : GState) (now qs : Int),
      decide (qs > 0) = st2.is_scale_up_trending →
      updateTrend st2 now qs = st2) ∧
    (∀ (st2 : GState) (now qs : Int),
      decide (qs > 0) ≠ st2.is_scale_up_trending →
      (updateTrend st2 now qs).trending_start_time = now) := by
  refine ⟨scaleRun_expected_of_shortRuns cfg samples st h, ?_, ?_⟩
  · intro st2 now qs hq
    unfold updateTrend
    split_ifs <;> simp_all
  · intro st2 now qs hq
    rw [updateTrend_start, if_neg hq]

/-- Claim C2 witness: a queue signal alternating 0, &gt;0, 0, &gt;0 every
two seconds under `trending_duration = 10` leaves the desired count at
its initial value 1. -/
theorem scale_debounce_no_flapping_witness :
    shortRunsB (10 : Int) true 0
      [⟨2, 0, 1⟩, ⟨4, 1, 1⟩, ⟨6, 0, 1⟩, ⟨8, 1, 1⟩] = true ∧
    (scaleRun ⟨1, 4, 5, 1, 10⟩ ⟨1, true, 0⟩
      [⟨2, 0, 1⟩, ⟨4, 1, 1⟩, ⟨6, 0, 1⟩, ⟨8, 1, 1⟩]).expected_worker_num = 1 :=
  ⟨by decide,
   (scale_debounce_no_flapping ⟨1, 4, 5, 1, 10⟩ ⟨1, true, 0⟩
     [⟨2, 0, 1⟩, ⟨4, 1, 1⟩, ⟨6, 0, 1⟩, ⟨8, 1, 1⟩] (by decide)).1⟩

theorem updateExpected_range (cfg : Config) (st : GState) (now pool : Int)
    (h : cfg.min_worker ≤ cfg.max_worker)
    (hg : cfg.trending_duration ≤ now - st.trending_start_time) :
    cfg.min_worker ≤ (updateExpected cfg st now pool).expected_worker_num ∧
    (updateExpected cfg st now pool).expected_worker_num ≤ cfg.max_worker := by
  unfold updateExpected
  dsimp only
  split_ifs <;> dsimp only <;> omega

/-- Claim C3 counterexample: with `BF_MIN_WORKER=2` the configured
minimum is 2, yet the initial desired count is 1, and it is still 1
after a tick on which the debounce interval has not elapsed — the range
invariant fails for the initial value, exactly where the claim includes
it. -/
theorem desired_count_initial_below_min :
    (load_config ⟨some 2, none, none, none, none⟩).min_worker = 2 ∧
    (initG 0).expected_worker_num = 1 ∧
    (scaleStep (load_config ⟨some 2, none, none, none, none⟩) (initG 0)
      ⟨5, 3, 1⟩).expected_worker_num = 1 ∧
    ¬ ((load_config ⟨some 2, none, none, none, none⟩).min_worker ≤
        (initG 0).expected_worker_num) := by decide

/-- Claim C3 (amended): once a tick fires the debounce gate, the updated
desired count lies in `[min_worker, max_worker]`, and any tick started
from an in-range desired count stays in range; the initial value 1,
however, can sit below a configured `min_worker > 1` until the first
gated update. -/
theorem desired_count_range_after_gate (cfg : Config) (st : GState)
    (s : Sample) (h : cfg.min_worker ≤ cfg.max_worker) :
    (cfg.trending_duration ≤
        s.now - (updateTrend st s.now s.queue_size).trending_start_time →
      cfg.min_worker ≤ (scaleStep cfg st s).expected_worker_num ∧
      (scaleStep cfg st s).expected_worker_num ≤ cfg.max_worker) ∧
    (cfg.min_worker ≤ st.expected_worker_num →
      st.expected_worker_num ≤ cfg.max_worker →
      cfg.min_worker ≤ (scaleStep cfg st s).expected_worker_num ∧
      (scaleStep cfg st s).expected_worker_num ≤ cfg.max_worker) := by
  constructor
  · intro hg
    exact updateExpected_range cfg (updateTrend st s.now s.queue_size)
      s.now s.worker_pool_size h hg
  · intro hlo hhi
    by_cases hg : cfg.trending_duration ≤
        s.now - (updateTrend st s.now s.queue_size).trending_start_time
    · exact updateExpected_range cfg (updateTrend st s.now s.queue_size)
        s.now s.worker_pool_size h hg
    · have : scaleStep cfg st s = updateTrend st s.now s.queue_size :=
        updateExpected_not_elapsed cfg _ s.now s.worker_pool_size (by omega)
      rw [this, updateTrend_expected]
      exact ⟨hlo, hhi⟩

/-- Claim C3 witness: with `min_worker = 2`, `max_worker = 4` and a tick
firing the debounce gate from the startup state, the resulting desired
count lies in `[2, 4]`. -/
theorem desired_count_range_after_gate_witness :
    ((2 : Int) ≤ 4) ∧
    (2 ≤ (scaleStep ⟨2, 4, 5, 1, 10⟩ ⟨1, true, 0⟩ ⟨10, 1, 1⟩).expected_worker_num ∧
     (scaleStep ⟨2, 4, 5, 1, 10⟩ ⟨1, true, 0⟩ ⟨10, 1, 1⟩).expected_worker_num ≤ 4) :=
  ⟨by decide,
   (desired_count_range_after_gate ⟨2, 4, 5, 1, 10⟩ ⟨1, true, 0⟩ ⟨10, 1, 1⟩
     (by decide)).1 (by decide)⟩

/-- Claim C4 counterexample: with `BF_MIN_WORKER=3` (a reachable
configuration), the first gated tick from the startup state jumps the
desired count from 1 to 3 — a step of 2, violating the rate limit the
claim asserts for every configuration and trend state. -/
theorem desired_count_step_jump_two :
    load_config ⟨some 3, none, none, none, none⟩ = ⟨3, 4, 5, 1, 10⟩ ∧
    (scaleStep ⟨3, 4, 5, 1, 10⟩ ⟨1, true, 0⟩ ⟨10, 1, 1⟩).expected_worker_num = 3 ∧
    ¬ (((scaleStep ⟨3, 4, 5, 1, 10⟩ ⟨1, true, 0⟩ ⟨10, 1, 1⟩).expected_worker_num -
        (initG 0).expected_worker_num).natAbs ≤ 1) := by decide

/-- Claim C4 (amended): for every tick started from a desired count that
already lies within `[min_worker, max_worker]` (which holds from the
first gated update onward), the desired count changes by at most one;
from a value outside the range the clamp can move it by more. -/
theorem desired_count_step_rate_limit (cfg : Config) (st : GState)
    (s : Sample) (h1 : cfg.min_worker ≤ cfg.max_worker)
    (h2 : cfg.min_worker ≤ st.expected_worker_num)
    (h3 : st.expected_worker_num ≤ cfg.max_worker) :
    ((scaleStep cfg st s).expected_worker_num -
      st.expected_worker_num).natAbs ≤ 1 := by
  have he := updateTrend_expected st s.now s.queue_size
  unfold scaleStep updateExpected
  dsimp only
  split_ifs <;> (try dsimp only) <;> omega

/-- Claim C4 witness: a gated scale-up tick from an in-range state moves
the desired count from 1 to 2, a step of size 1. -/
theorem desired_count_step_rate_limit_witness :
    ((1 : Int) ≤ 4 ∧ (1 : Int) ≤ 1 ∧ (1 : Int) ≤ 4) ∧
    ((scaleStep ⟨1, 4, 5, 1, 10⟩ ⟨1, true, 0⟩ ⟨10, 1, 1⟩).expected_worker_num -
      (1 : Int)).natAbs ≤ 1 :=
  ⟨by decide,
   desired_count_step_rate_limit ⟨1, 4, 5, 1, 10⟩ ⟨1, true, 0⟩ ⟨10, 1, 1⟩
     (by decide) (by decide) (by decide)⟩

/-- Claim C5 counterexample: two `queue_size` lines with the *identical*
label set do not both contribute — the inner dict assignment overwrites
the earlier value, so the payload sums to 3, not 2 + 3 as the claim
states for repeated identical label sets. -/
theorem parse_metrics_identical_labels_overwrite :
    scrape_buildfarm_server_metrics (HttpResult.resp 200
      "queue_size\x7ba=\"1\"\x7d 2\nqueue_size\x7ba=\"1\"\x7d 3\nworker_pool_size 1") =
      ServerOutcome.ok 3 1 ∧
    ¬ ((3 : Int) = 2 + 3) := ⟨rfl, by decide⟩

/-- Claim C5 (amended): lines with *distinct* label sets under the same
bare key accumulate (the stated example sums to 5), but a repeated
identical label set overwrites the earlier value (the parsed dictionary
keeps a single entry holding the last value), and repeated unlabelled
lines likewise overwrite, leaving a single scalar holding the last
value. -/
theorem parse_metrics_accumulation_semantics :
    scrape_buildfarm_server_metrics (HttpResult.resp 200
      "queue_size\x7ba=\"1\"\x7d 2\nqueue_size\x7bb=\"2\"\x7d 3\nworker_pool_size 1") =
      ServerOutcome.ok 5 1 ∧
    parse_metrics "queue_size\x7ba=\"1\"\x7d 2\nqueue_size\x7ba=\"1\"\x7d 3" =
      Except.ok [("queue_size", MetricVal.labeled [("\x7ba=\"1\"\x7d", "3")])] ∧
    parse_metrics "queue_size 2\nqueue_size 3" =
      Except.ok [("queue_size", MetricVal.scalar "3")] := ⟨rfl, rfl, rfl⟩

/-- Claim C6 (code bug): a malformed numeric value (`abc`) in a scraped
payload makes `int(float(v))` raise `ValueError` inside
`scrape_buildfarm_server_metrics`; the `try` there only wraps the HTTP
request, and neither `scale` nor `main` catches anything, so the
exception propagates out of the tick and terminates the process instead
of being confined to a recoverable scrape error as the claim (and the
source's own error-returning convention) prescribes. -/
theorem malformed_value_uncaught_valueerror :
    scrape_buildfarm_server_metrics (HttpResult.resp 200
      "queue_size\x7bq=\"a\"\x7d abc\nworker_pool_size 1") =
      ServerOutcome.exc "ValueError" ∧
    scale_scrape_phase (HttpResult.resp 200
      "queue_size\x7bq=\"a\"\x7d abc\nworker_pool_size 1") =
      Except.error "ValueError" := ⟨rfl, rfl⟩

/-- Claim C7 counterexample: a successfully fetched and parsed payload
with no `queue_size` key *does* fail the scrape — the source returns the
error pair `metric queue_size not found` instead of defaulting the
aggregate to zero. -/
theorem missing_queue_size_is_error :
    scrape_buildfarm_server_metrics (HttpResult.resp 200 "worker_pool_size 1") =
      ServerOutcome.err "metric queue_size not found" := rfl

/-- Claim C7 (amended): absence of *either* required key from a
successfully parsed 200 payload is reported as a scrape error —
`queue_size` does not default to zero: its absence errors exactly like
the absence of `worker_pool_size`. -/
theorem missing_required_metric_errors (content : String) (m : Metrics)
    (hp : parse_metrics content = Except.ok m) :
    (dictGet m "queue_size" = none →
      scrape_buildfarm_server_metrics (HttpResult.resp 200 content) =
        ServerOutcome.err "metric queue_size not found") ∧
    (∀ (items : List (String × String)) (qs : Int),
      dictGet m "queue_size" = some (MetricVal.labeled items) →
      sumQueueItems items 0 = Except.ok qs →
      dictGet m "worker_pool_size" = none →
      scrape_buildfarm_server_metrics (HttpResult.resp 200 content) =
        ServerOutcome.err "metric worker_pool_size not found") := by
  constructor
  · intro hq
    simp [scrape_buildfarm_server_metrics, hp, hq]
  · intro items qs hq hsum hw
    simp [scrape_buildfarm_server_metrics, hp, hq, hsum, hw]

/-- Claim C7 witness: the payload `worker_pool_size 1` parses, lacks
`queue_size`, and the scrape reports the corresponding error pair. -/
theorem missing_required_metric_errors_witness :
    parse_metrics "worker_pool_size 1" =
      Except.ok [("worker_pool_size", MetricVal.scalar "1")] ∧
    dictGet [("worker_pool_size", MetricVal.scalar "1")] "queue_size" = none ∧
    scrape_buildfarm_server_metrics (HttpResult.resp 200 "worker_pool_size 1") =
      ServerOutcome.err "metric queue_size not found" :=
  ⟨rfl, rfl,
   (missing_required_metric_errors "worker_pool_size 1"
     [("worker_pool_size", MetricVal.scalar "1")] rfl).1 rfl⟩

/-- Claim C9 counterexample: with `BF_MIN_WORKER=5` and `BF_MAX_WORKER=2`
startup succeeds — `load_config` silently assigns `max_worker =
min_worker` and the process continues with the adjusted values, instead
of exiting non-zero as the claim states. -/
theorem load_config_adjusts_max_no_exit :
    startup ⟨some 5, some 2, none, none, none⟩ (some "buildfarm") 0 =
      Except.ok (⟨5, 5, 5, 1, 10⟩, ⟨1, true, 0⟩) ∧
    (load_config ⟨some 5, some 2, none, none, none⟩).max_worker =
      (load_config ⟨some 5, some 2, none, none, none⟩).min_worker := ⟨rfl, rfl⟩

/-- Claim C9 (amended): an invalid `max_workers < min_workers`
configuration is not fatal: `load_config` clamps `min_worker` up to 1 and
raises `max_worker` to `min_worker`, and startup proceeds normally with
the adjusted, always-consistent values for any non-empty sandbox name;
the only fatal startup exit is a missing or empty `SANDBOX_NAME`. -/
theorem startup_continues_with_adjusted_config (env : Env) (s : String)
    (t0 : Int) (hs : s ≠ "") :
    startup env (some s) t0 = Except.ok (load_config env, initG t0) ∧
    (load_config env).min_worker ≤ (load_config env).max_worker ∧
    1 ≤ (load_config env).min_worker := by
  refine ⟨?_, ?_, ?_⟩
  · unfold startup
    dsimp only
    rw [if_neg hs]
  · unfold load_config
    dsimp only
    split_ifs <;> omega
  · unfold load_config
    dsimp only
    split_ifs <;> omega

/-- Claim C9 witness: instantiated at the inverted configuration
`BF_MIN_WORKER=5`, `BF_MAX_WORKER=2` with sandbox name `sb`. -/
theorem startup_continues_with_adjusted_config_witness :
    ("sb" ≠ "") ∧
    startup ⟨some 5, some 2, none, none, none⟩ (some "sb") 0 =
      Except.ok (load_config ⟨some 5, some 2, none, none, none⟩, initG 0) :=
  ⟨by decide,
   (startup_continues_with_adjusted_config ⟨some 5, some 2, none, none, none⟩
     "sb" 0 (by decide)).1⟩

/-- Claim C10: for any worker whose metrics endpoint answers 200 with a
payload whose parsed dictionary contains `execution_slot_usage`,
`scrape_buildfarm_worker_metrics` hits line 311's read of the undefined
name `metric` and raises `NameError` instead of returning a
`(result, error)` pair — in particular it can never return a successful
result from such a response, so `scale_down` never observes a
successfully scraped busy/idle status this way. -/
theorem scrape_worker_metrics_raises_nameerror (w : String)
    (r : PromResult) (content : String) (m : Metrics) (v : MetricVal)
    (hp : parse_metrics content = Except.ok m)
    (hk : dictGet m "execution_slot_usage" = some v) :
    scrape_buildfarm_worker_metrics w r (HttpResult.resp 200 content) =
      WorkerOutcome.exc "NameError: metric" ∧
    ∀ wm, scrape_buildfarm_worker_metrics w r (HttpResult.resp 200 content) ≠
      WorkerOutcome.ok wm := by
  have h : scrape_buildfarm_worker_metrics w r (HttpResult.resp 200 content) =
      WorkerOutcome.exc "NameError: metric" := by
    simp [scrape_buildfarm_worker_metrics, hp, hk]
  refine ⟨h, fun wm hok => ?_⟩
  rw [h] at hok
  cases hok

/-- Claim C10 witness: a worker payload `execution_slot_usage 0` parses,
contains the key, and the scrape raises the `NameError`. -/
theorem scrape_worker_metrics_raises_nameerror_witness :
    parse_metrics "execution_slot_usage 0" =
      Except.ok [("execution_slot_usage", MetricVal.scalar "0")] ∧
    scrape_buildfarm_worker_metrics "bf-worker0" ⟨0, "", ""⟩
      (HttpResult.resp 200 "execution_slot_usage 0") =
      WorkerOutcome.exc "NameError: metric" :=
  ⟨rfl,
   (scrape_worker_metrics_raises_nameerror "bf-worker0" ⟨0, "", ""⟩
     "execution_slot_usage 0" [("execution_slot_usage", MetricVal.scalar "0")]
     (MetricVal.scalar "0") rfl rfl).1⟩

theorem scrapeEvents_filter_submit (o : Nat → String → Option WMetrics)
    (ws : List String) (i : Nat) :
    (ws.map (fun w => Event.scraped w (o i w))).filter isSubmitted = [] := by
  induction ws with
  | nil => rfl
  | cons w ws ih => simp [List.filter_cons, isSubmitted, ih]

theorem downStep_metrics (o : Nat → String → Option WMetrics)
    (ws : List String) (i : Nat) (st : DownState) :
    (downStep o ws i st).metrics =
      st.metrics ++ ws.filterMap (fun w => o i w) := by
  unfold downStep
  dsimp only
  split <;> rfl

theorem downStep_filter_submit (o : Nat → String → Option WMetrics)
    (ws : List String) (i : Nat) (st : DownState)
    (h : st.events.filter isSubmitted = []) :
    (downStep o ws i st).events.filter isSubmitted = [] := by
  unfold downStep
  dsimp only
  split <;>
    simp [List.filter_append, h, scrapeEvents_filter_submit,
      List.filter_cons, isSubmitted]

theorem downLoop_filter_submit (o : Nat → String → Option WMetrics)
    (ws : List String) :
    ∀ (n i : Nat) (st : DownState), st.events.filter isSubmitted = [] →
      (downLoop o ws n i st).events.filter isSubmitted = []
  | 0, _, _, h => h
  | Nat.succ n, i, st, h =>
    downLoop_filter_submit o ws n (i + 1) (downStep o ws i st)
      (downStep_filter_submit o ws i st h)

theorem noSubmit_noRemovalAfterSubmit :
    ∀ l : List Event, l.filter isSubmitted = [] →
      noRemovalAfterSubmit l = true
  | [], _ => rfl
  | e :: l, h => by
    have he : isSubmitted e = false := by
      by_contra hc
      rw [List.filter_cons, if_pos (by simpa using hc)] at h
      cases h
    have hl : l.filter isSubmitted = [] := by
      rwa [List.filter_cons, if_neg (by simp [he])] at h
    cases e with
    | scraped w r => simpa [noRemovalAfterSubmit]
        using noSubmit_noRemovalAfterSubmit l hl
    | removed w => simpa [noRemovalAfterSubmit]
        using noSubmit_noRemovalAfterSubmit l hl
    | submitted d => cases he

theorem noRemovalAfterSubmit_append_submit :
    ∀ (l : List Event) (d : List String), l.filter isSubmitted = [] →
      noRemovalAfterSubmit (l ++ [Event.submitted d]) = true
  | [], d, _ => by simp [noRemovalAfterSubmit, isRemoved]
  | e :: l, d, h => by
    have he : isSubmitted e = false := by
      by_contra hc
      rw [List.filter_cons, if_pos (by simpa using hc)] at h
      cases h
    have hl : l.filter isSubmitted = [] := by
      rwa [List.filter_cons, if_neg (by simp [he])] at h
    cases e with
    | scraped w r => simpa [noRemovalAfterSubmit]
        using noRemovalAfterSubmit_append_submit l d hl
    | removed w => simpa [noRemovalAfterSubmit]
        using noRemovalAfterSubmit_append_submit l d hl
    | submitted d2 => cases he

/-- Claim C8 counterexample: with three defined workers, a desired count
of 1 and every scrape reporting an idle worker, the trace of a single
`scale_down` call places a removal at position 3 followed by further
scrapes — not by a submission — and the whole trace falsifies the
claim's submit-immediately-after-each-removal protocol. -/
theorem scale_down_submit_not_after_each_removal :
    eachRemovalImmediatelySubmitted
      ((scale_down (fun _ w => some ⟨w, 0⟩) 1
        ["bf-worker0", "bf-worker1", "bf-worker2"]).events) = false ∧
    ((scale_down (fun _ w => some ⟨w, 0⟩) 1
        ["bf-worker0", "bf-worker1", "bf-worker2"]).events).getD 3
      (Event.submitted []) = Event.removed "bf-worker0" ∧
    isSubmitted (((scale_down (fun _ w => some ⟨w, 0⟩) 1
        ["bf-worker0", "bf-worker1", "bf-worker2"]).events).getD 4
      (Event.submitted [])) = false := ⟨rfl, rfl, rfl⟩

/-- Claim C8 (amended): `scale_down` submits the mutated document at most
once per call, and only after the entire removal loop has finished — the
trace never shows a removal after a submission, rather than one
submission immediately after each removal as the claim states. -/
theorem scale_down_single_submit_after_loop
    (oracle : Nat → String → Option WMetrics) (expected : Int)
    (containers : List String) :
    ((scale_down oracle expected containers).events.filter isSubmitted).length ≤ 1 ∧
    noRemovalAfterSubmit (scale_down oracle expected containers).events = true := by
  unfold scale_down
  dsimp only
  have hloop := downLoop_filter_submit oracle
    (workers_defined_in_template containers)
    (((workers_defined_in_template containers).length : Int) -
      expected).toNat 0
    ⟨[], containers, false, []⟩ rfl
  split_ifs with h1 h2
  · exact ⟨by simp, rfl⟩
  · constructor
    · dsimp only
      rw [List.filter_append, hloop]
      simp [isSubmitted]
    · exact noRemovalAfterSubmit_append_submit _ _ hloop
  · exact ⟨by rw [hloop]; simp, noSubmit_noRemovalAfterSubmit _ hloop⟩

theorem downStep_removed_was_idle (o : Nat → String → Option WMetrics)
    (ws : List String) (i : Nat) (st : DownState) (name : String)
    (hin : name ∈ st.containers)
    (hout : name ∉ (downStep o ws i st).containers) :
    ∃ m, m ∈ st.metrics ++ ws.filterMap (fun w => o i w) ∧
      m.worker_name = name ∧ m.execution_slot_usage = 0 := by
  unfold downStep at hout
  dsimp only at hout
  split at hout
  · exact absurd hin hout
  · next m0 rest heq =>
    have hname : name = m0.worker_name := by
      by_contra hne
      exact hout (List.mem_filter.mpr ⟨hin, by simpa using hne⟩)
    have hm0 : m0 ∈ (st.metrics ++ ws.filterMap fun w => o i w).filter
        (fun m => decide (m.execution_slot_usage = 0)) := by
      rw [heq]
      exact List.mem_cons_self m0 rest
    have hmem := List.mem_filter.mp hm0
    exact ⟨m0, hmem.1, hname.symm, by simpa using hmem.2⟩

theorem downLoop_removed_was_idle (o : Nat → String → Option WMetrics)
    (ws : List String) (name : String) :
    ∀ (n i : Nat) (st : DownState),
      (∀ m ∈ st.metrics, ∃ j w, o j w = some m) →
      name ∈ st.containers →
      name ∉ (downLoop o ws n i st).containers →
      ∃ j w m, o j w = some m ∧ m.worker_name = name ∧
        m.execution_slot_usage = 0
  | 0, _, _, _, hin, hout => absurd hin hout
  | Nat.succ n, i, st, hsrc, hin, hout => by
    by_cases hmid : name ∈ (downStep o ws i st).containers
    · refine downLoop_removed_was_idle o ws name n (i + 1)
        (downStep o ws i st) ?_ hmid hout
      rw [downStep_metrics]
      intro m hm
      rcases List.mem_append.mp hm with hm | hm
      · exact hsrc m hm
      · obtain ⟨w, _, how⟩ := List.mem_filterMap.mp hm
        exact ⟨i, w, how⟩
    · obtain ⟨m, hm, hname, husage⟩ :=
        downStep_removed_was_idle o ws i st name hin hmid
      rcases List.mem_append.mp hm with hm | hm
      · obtain ⟨j, w, how⟩ := hsrc m hm
        exact ⟨j, w, m, how, hname, husage⟩
      · obtain ⟨w, _, how⟩ := List.mem_filterMap.mp hm
        exact ⟨i, w, m, how, hname, husage⟩

/-- Claim C1: for every scrape oracle and fleet composition, a container
name that `scale_down` drops from the document must have been returned
by some per-worker scrape with `execution_slot_usage = 0`; consequently a
worker all of whose scrapes report `execution_slot_usage > 0` is never
removed, even when the fleet stays above the desired count. -/
theorem scale_down_busy_worker_safety
    (oracle : Nat → String → Option WMetrics) (expected : Int)
    (containers : List String) (name : String) (hin : name ∈ containers) :
    (name ∉ (scale_down oracle expected containers).containers →
      ∃ j w m, oracle j w = some m ∧ m.worker_name = name ∧
        m.execution_slot_usage = 0) ∧
    ((∀ j w m, oracle j w = some m → m.worker_name = name →
        0 < m.execution_slot_usage) →
      name ∈ (scale_down oracle expected containers).containers) := by
  have hmain : name ∉ (scale_down oracle expected containers).containers →
      ∃ j w m, oracle j w = some m ∧ m.worker_name = name ∧
        m.execution_slot_usage = 0 := by
    intro hout
    unfold scale_down at hout
    dsimp only at hout
    split_ifs at hout with h1 h2
    · exact absurd hin hout
    · exact downLoop_removed_was_idle oracle _ name _ 0 _
        (by intro m hm; cases hm) hin hout
    · exact downLoop_removed_was_idle oracle _ name _ 0 _
        (by intro m hm; cases hm) hin hout
  refine ⟨hmain, fun hbusy => ?_⟩
  by_contra hout
  obtain ⟨j, w, m, how, hname, husage⟩ := hmain hout
  have := hbusy j w m how hname
  omega

/-- Claim C1 witness: with every scrape reporting
`execution_slot_usage = 1`, `bf-worker0` is still defined after a
`scale_down` call that wants to drop from three workers to one. -/
theorem scale_down_busy_worker_safety_witness :
    ("bf-worker0" ∈ ["bf-worker0", "bf-worker1", "bf-worker2"]) ∧
    "bf-worker0" ∈ (scale_down (fun _ w => some ⟨w, 1⟩) 1
      ["bf-worker0", "bf-worker1", "bf-worker2"]).containers :=
  ⟨by decide,
   (scale_down_busy_worker_safety (fun _ w => some ⟨w, 1⟩) 1
     ["bf-worker0", "bf-worker1", "bf-worker2"] "bf-worker0" (by decide)).2
     (by
       intro j w m how _
       injection how with h
       rw [← h]
       exact zero_lt_one)⟩

end BuildfarmAutoScale
